import Mathlib

/-!
Shallow embedding of the tun-tap crate (src/src/lib.rs and src/src/async.rs)
and proofs of the specification claims about it.

Bytes are modelled as `Nat`, buffers as `List Nat`.  The fallible Rust
functions return `Except IOError _`.  The interactions with the operating
system (the outcome of a `read`/`write` syscall on the tun file descriptor)
are supplied as explicit event parameters, so each Rust control path becomes
a pure Lean function of the adapter state and the syscall outcome.
-/

namespace TunTap

/-- Embedding of the subset of `std::io::ErrorKind` the code inspects:
`async.rs` only ever compares an error kind against `WouldBlock`. -/
inductive ErrorKind where
  | wouldBlock
  | notFound
  | permissionDenied
  | invalidInput
  | otherKind
deriving DecidableEq, Repr

/-- Embedding of `std::io::Error`: the kind the code branches on plus an
opaque payload (OS error code) that lets us distinguish error values with the
same kind, so that returning an error "unmodified" is a provable statement. -/
structure IOError where
  kind : ErrorKind
  code : Nat
deriving DecidableEq, Repr

/-- Embedding of `tun_tap::Mode` (src/src/lib.rs): `Tun = 1`, `Tap = 2`. -/
inductive Mode where
  | Tun
  | Tap
deriving DecidableEq, Repr

/-- Embedding of `tun_tap::Iface` (src/src/lib.rs): the owned file
descriptor, the mode recorded at creation, and the kernel-confirmed name. -/
structure Iface where
  fd : Nat
  mode : Mode
  name : String
deriving DecidableEq, Repr

/-- Embedding of `Iface::with_options` (src/src/lib.rs).  The native
`tuntap_setup` call (src/tuntap.c, compiled by build.rs but not under src/)
is abstracted as its outcome `setupResult`: on success the kernel-confirmed
name, on failure the OS error.  The open of `/dev/net/tun` yielding the file
descriptor is abstracted likewise by `openResult`. -/
def Iface.with_options (mode : Mode) (openResult : Except IOError Nat)
    (setupResult : Except IOError String) : Except IOError Iface :=
  match openResult with
  | .error e => .error e
  | .ok fd =>
    match setupResult with
    | .error e => .error e
    | .ok kernelName => .ok { fd := fd, mode := mode, name := kernelName }

/-- Embedding of the accessor `Iface::mode` (src/src/lib.rs): returns the
stored mode field. -/
def Iface.getMode (i : Iface) : Mode :=
  i.mode

/-- Embedding of the accessor `Iface::name` (src/src/lib.rs): returns the
stored name field. -/
def Iface.getName (i : Iface) : String :=
  i.name

/-- Outcome of one `read` syscall attempt on the tun descriptor, as seen by
`Iface::recv` / `MioWrapper::read`: either a packet is delivered or the
syscall fails with an I/O error (`wouldBlock` kind included). -/
inductive RecvEvent where
  | packet (data : List Nat)
  | failed (e : IOError)
deriving DecidableEq, Repr

/-- Outcome of one `write` syscall attempt on the tun descriptor, as seen by
`Iface::send` / `MioWrapper::write`: the kernel accepted `size` bytes, or
the syscall fails with an I/O error (`wouldBlock` kind included). -/
inductive SendEvent where
  | accepted (size : Nat)
  | failed (e : IOError)
deriving DecidableEq, Repr

/-- Semantics of a successful `read` on the descriptor, per the spec's
description of `recv`: the packet is copied into the buffer up to the
buffer's length, the tail beyond the buffer is discarded, and the byte
count copied is returned.  Result: the buffer after the syscall and the
returned size. -/
def osRead (data buf : List Nat) : List Nat × Nat :=
  (data.take buf.length ++ buf.drop data.length, min data.length buf.length)

/-- Embedding of `Iface::recv` (src/src/lib.rs): a single `read` on the
file descriptor with the caller's buffer.  `recv` takes `&self`, so it
returns no new `Iface`; the outcome of the syscall is the event `ev`. -/
def Iface.recv (i : Iface) (buf : List Nat) (ev : RecvEvent) :
    Except IOError (List Nat × Nat) :=
  match ev with
  | .packet data => .ok (osRead data buf)
  | .failed e => .error e

/-- Embedding of `Iface::send` (src/src/lib.rs): a single `write` on the
file descriptor.  `send` takes `&self`, so it returns no new `Iface`. -/
def Iface.send (i : Iface) (buf : List Nat) (ev : SendEvent) :
    Except IOError Nat :=
  match ev with
  | .accepted size => .ok size
  | .failed e => .error e

/-- One observable operation on an `Iface` handle, for stating that no
sequence of calls mutates the handle. -/
inductive IfaceOp where
  | recvOp (buf : List Nat) (ev : RecvEvent)
  | sendOp (buf : List Nat) (ev : SendEvent)
  | modeOp
  | nameOp
deriving DecidableEq, Repr

/-- State transition of the `Iface` under one operation.  All four Rust
methods take `&self` (src/src/lib.rs lines 159-210), so none of them can
write to the `mode`, `name` or `fd` fields: the handle after the call is
the handle before it. -/
def Iface.applyOp (i : Iface) : IfaceOp → Iface
  | .recvOp _ _ => i
  | .sendOp _ _ => i
  | .modeOp => i
  | .nameOp => i

/-- Iterates `Iface.applyOp` over a call sequence. -/
def Iface.runOps (i : Iface) : List IfaceOp → Iface
  | [] => i
  | op :: rest => Iface.runOps (Iface.applyOp i op) rest

/-- Modelled from the spec: the `duplicate` operation (`try_clone` in the
integration test) is not implemented in src/src/lib.rs; only
src/tests/integration_test.rs calls it.  Per the spec it "produces a second
owner of the same underlying resource": the duplicate refers to the same
kernel-side adapter (same descriptor identity), with mode and name copied. -/
def Iface.duplicate (i : Iface) : Iface :=
  { fd := i.fd, mode := i.mode, name := i.name }

/-- Modelled from the spec: the kernel side of the adapters, needed to state
what sharing "the same underlying resource" means.  Each kernel adapter
(keyed by descriptor identity) holds the queue of packets waiting to be
received. -/
structure Kernel where
  queues : Nat → List (List Nat)

/-- Modelled from the spec: a blocking `recv` through a handle pops the
first pending packet of the kernel adapter the handle refers to ("ownership
of the data is transferred to whichever reader wins the race"); `none` when
no packet is pending (the call would keep blocking). -/
def kernelRecv (k : Kernel) (i : Iface) : Option (List Nat × Kernel) :=
  match k.queues i.fd with
  | [] => none
  | p :: rest =>
    some (p, { queues := fun f => if f = i.fd then rest else k.queues f })

end TunTap

namespace TunTap

/-- Embedding of `MioWrapper` (src/src/async.rs): a newtype over `Iface`
whose `Read`/`Write` impls delegate to `Iface::recv`/`Iface::send`. -/
structure MioWrapper where
  iface : Iface
deriving DecidableEq, Repr

/-- Embedding of `MioWrapper::read` (src/src/async.rs): delegates to
`self.iface.recv(buf)`. -/
def MioWrapper.read (m : MioWrapper) (buf : List Nat) (ev : RecvEvent) :
    Except IOError (List Nat × Nat) :=
  m.iface.recv buf ev

/-- Embedding of `MioWrapper::write` (src/src/async.rs): delegates to
`self.iface.send(buf)`. -/
def MioWrapper.write (m : MioWrapper) (buf : List Nat) (ev : SendEvent) :
    Except IOError Nat :=
  m.iface.send buf ev

/-- Embedding of `tokio_core::reactor::PollEvented<MioWrapper>`: the wrapped
handle plus the fact of its one-time registration with the reactor. -/
structure PollEvented where
  io : MioWrapper
  registered : Bool
deriving DecidableEq, Repr

/-- Embedding of `tun_tap::async::Async` (src/src/async.rs): the registered
handle and the receive-buffer size. -/
structure Async where
  mio : PollEvented
  recv_bufsize : Nat
deriving DecidableEq, Repr

/-- Embedding of `Async::new` (src/src/async.rs): sets the descriptor
non-blocking via `ioctl(FIONBIO)` (outcome `ioctlResult`), then registers
the wrapped iface with the reactor (outcome `registerResult`); on success
the adapter starts with `recv_bufsize = 1542`. -/
def Async.new (iface : Iface) (ioctlResult : Except IOError Unit)
    (registerResult : Except IOError Unit) : Except IOError Async :=
  match ioctlResult with
  | .error e => .error e
  | .ok _ =>
    match registerResult with
    | .error e => .error e
    | .ok _ =>
      .ok { mio := { io := { iface := iface }, registered := true },
            recv_bufsize := 1542 }

/-- Embedding of `Async::set_recv_bufsize` (src/src/async.rs): overwrites
the `recv_bufsize` field, nothing else. -/
def Async.set_recv_bufsize (a : Async) (bufsize : Nat) : Async :=
  { a with recv_bufsize := bufsize }

/-- Embedding of `futures::Async` (the readiness half of `Poll`). -/
inductive FAsync (α : Type) where
  | ready (a : α)
  | notReady
deriving DecidableEq, Repr

/-- Embedding of `futures::AsyncSink` (the result of `start_send`). -/
inductive ASink (α : Type) where
  | ready
  | notReady (item : α)
deriving DecidableEq, Repr

/-- Embedding of `Vec::resize(len, 0)` as used in `Stream::poll`: truncate
when shrinking, pad with zero bytes when growing. -/
def listResize (l : List Nat) (n : Nat) : List Nat :=
  if n ≤ l.length then l.take n else l ++ List.replicate (n - l.length) 0

/-- Embedding of the allocation `vec![0; self.recv_bufsize]` performed at
the start of every `Stream::poll` call (src/src/async.rs line 119). -/
def Async.recvBuffer (a : Async) : List Nat :=
  List.replicate a.recv_bufsize 0

/-- Embedding of `<Async as Stream>::poll` (src/src/async.rs lines
117-130).  The syscall outcomes are supplied as the oracle `env`; the
mio-registered read consumes exactly the first event (`none` when the
oracle is exhausted, which prescribes nothing).  Returns the Rust result
`FPoll<Option<Vec<u8>>, Error>`, the adapter after the call, and the
remaining oracle.  Faithful to the source: allocate `vec![0; recv_bufsize]`,
one `self.mio.read(&mut buffer)`, then on `Ok(size)` resize to `size` and
yield `Ready(Some(buffer))`, on a would-block error yield `NotReady`, on
any other error return it. -/
def Async.poll (a : Async) (env : List RecvEvent) :
    Option (Except IOError (FAsync (Option (List Nat))) × Async × List RecvEvent) :=
  match env with
  | [] => none
  | ev :: rest =>
    let buffer := a.recvBuffer
    match a.mio.io.read buffer ev with
    | .ok (buf2, size) => some (.ok (.ready (some (listResize buf2 size))), a, rest)
    | .error e =>
      if e.kind = ErrorKind.wouldBlock then some (.ok .notReady, a, rest)
      else some (.error e, a, rest)

/-- Embedding of `<Async as Sink>::start_send` (src/src/async.rs lines
134-142).  One `self.mio.write(&item)` whose outcome is the event `ev`:
on `Ok(_size)` the item counts as sent regardless of the size written, on a
would-block error the item is handed back in `NotReady(item)`, on any other
error the error is returned.  Returns the Rust result and the adapter after
the call. -/
def Async.start_send (a : Async) (item : List Nat) (ev : SendEvent) :
    Except IOError (ASink (List Nat)) × Async :=
  match a.mio.io.write item ev with
  | .ok _size => (.ok .ready, a)
  | .error e =>
    if e.kind = ErrorKind.wouldBlock then (.ok (.notReady item), a)
    else (.error e, a)

/-- Embedding of `<Async as Sink>::poll_complete` (src/src/async.rs):
always `Ok(Async::Ready(()))`. -/
def Async.poll_complete (a : Async) : Except IOError (FAsync Unit) × Async :=
  (.ok (.ready ()), a)

end TunTap

namespace TunTap

/-- Sample interface used to instantiate theorems with hypotheses on
concrete inputs. -/
def sampleIface : Iface :=
  { fd := 3, mode := Mode.Tun, name := "tun0" }

/-- Sample adapter wrapping `sampleIface`, as `Async.new` would build it. -/
def sampleAsync : Async :=
  { mio := { io := { iface := sampleIface }, registered := true },
    recv_bufsize := 1542 }

/-- Sample would-block error (kind `WouldBlock`, errno 11 = EAGAIN). -/
def eAgain : IOError :=
  { kind := ErrorKind.wouldBlock, code := 11 }

/-- Sample genuine error (kind distinct from `WouldBlock`). -/
def eBroken : IOError :=
  { kind := ErrorKind.otherKind, code := 32 }

/-- Sample kernel state: the adapter behind descriptor 3 has two pending
packets. -/
def sampleKernel : Kernel :=
  { queues := fun f => if f = 3 then [[9, 9], [7]] else [] }

end TunTap

namespace TunTap

theorem applyOp_eq (i : Iface) (op : IfaceOp) : Iface.applyOp i op = i := by
  cases op <;> rfl

theorem runOps_eq (i : Iface) (ops : List IfaceOp) : Iface.runOps i ops = i := by
  induction ops with
  | nil => rfl
  | cons op rest ih => simp [Iface.runOps, applyOp_eq, ih]

theorem osRead_fst_length (data : List Nat) (n : Nat) :
    ((osRead data (List.replicate n 0)).1).length = n := by
  simp only [osRead, List.length_append, List.length_take, List.length_drop,
    List.length_replicate]
  omega

theorem listResize_osRead (data : List Nat) (n : Nat) :
    listResize (osRead data (List.replicate n 0)).1 (osRead data (List.replicate n 0)).2 =
      data.take (min data.length n) := by
  have hlen := osRead_fst_length data n
  have hle : (osRead data (List.replicate n 0)).2 ≤ n := by
    simp only [osRead, List.length_replicate]
    omega
  rw [listResize, if_pos (by rw [hlen]; exact hle)]
  simp only [osRead, List.length_replicate]
  rw [List.take_append_eq_append_take, List.take_take]
  have h1 : min (min data.length n) (data.take n).length = min data.length n := by
    simp [List.length_take]
  have h2 : min data.length n - (data.take n).length = 0 := by
    simp [List.length_take]
  rw [List.length_take] at *
  simp [Nat.min_comm, h2]

theorem poll_packet (a : Async) (data : List Nat) (rest : List RecvEvent) :
    Async.poll a (RecvEvent.packet data :: rest) =
      some (Except.ok (FAsync.ready (some (data.take (min data.length a.recv_bufsize)))),
        a, rest) := by
  simp only [Async.poll, Async.recvBuffer, MioWrapper.read, Iface.recv]
  rw [listResize_osRead]

end TunTap

namespace TunTap

/-- C1: a would-block failure of the underlying recv/send attempt is never
surfaced by the async adapter: `Stream::poll` returns the non-error
`Ok(NotReady)` suspension (neither an error nor a zero-length `Ready`
chunk), and `Sink::start_send` returns the non-error `Ok(NotReady(item))`
still holding the item. -/
theorem c1_would_block_not_surfaced (a : Async) (e : IOError)
    (rest : List RecvEvent) (item : List Nat)
    (h : e.kind = ErrorKind.wouldBlock) :
    Async.poll a (RecvEvent.failed e :: rest) =
      some (Except.ok FAsync.notReady, a, rest) ∧
    Async.start_send a item (SendEvent.failed e) =
      (Except.ok (ASink.notReady item), a) := by
  refine ⟨?_, ?_⟩ <;>
    simp [Async.poll, Async.start_send, MioWrapper.read, MioWrapper.write,
      Iface.recv, Iface.send, h]

/-- Witness for C1 at a concrete adapter, EAGAIN error and item. -/
theorem c1_witness :
    eAgain.kind = ErrorKind.wouldBlock ∧
    (Async.poll sampleAsync [RecvEvent.failed eAgain] =
        some (Except.ok FAsync.notReady, sampleAsync, []) ∧
      Async.start_send sampleAsync [1, 2, 3] (SendEvent.failed eAgain) =
        (Except.ok (ASink.notReady [1, 2, 3]), sampleAsync)) :=
  ⟨rfl, c1_would_block_not_surfaced sampleAsync eAgain [] [1, 2, 3] rfl⟩

/-- C2: any underlying I/O error whose kind is not would-block is returned
by `Stream::poll` and `Sink::start_send` immediately and unmodified (the
very same error value `e`), and the attempt is not retried: exactly one
syscall event is consumed, the rest of the oracle is untouched. -/
theorem c2_real_errors_propagate (a : Async) (e : IOError)
    (rest : List RecvEvent) (item : List Nat)
    (h : e.kind ≠ ErrorKind.wouldBlock) :
    Async.poll a (RecvEvent.failed e :: rest) =
      some (Except.error e, a, rest) ∧
    Async.start_send a item (SendEvent.failed e) = (Except.error e, a) := by
  refine ⟨?_, ?_⟩ <;>
    simp [Async.poll, Async.start_send, MioWrapper.read, MioWrapper.write,
      Iface.recv, Iface.send, h]

/-- Witness for C2 at a concrete adapter, EPIPE-like error and item. -/
theorem c2_witness :
    eBroken.kind ≠ ErrorKind.wouldBlock ∧
    (Async.poll sampleAsync [RecvEvent.failed eBroken] =
        some (Except.error eBroken, sampleAsync, []) ∧
      Async.start_send sampleAsync [4, 5] (SendEvent.failed eBroken) =
        (Except.error eBroken, sampleAsync)) :=
  ⟨by decide, c2_real_errors_propagate sampleAsync eBroken [] [4, 5] (by decide)⟩

/-- C3 counterexample: the claim says the default receive-buffer size is
1504; a freshly and successfully constructed adapter has
`recv_bufsize = 1542`, and `1542 ≠ 1504`. -/
theorem c3_counterexample :
    (Async.new sampleIface (Except.ok ()) (Except.ok ())).toOption.map
        Async.recv_bufsize = some 1542 ∧ (1542 : Nat) ≠ 1504 :=
  ⟨rfl, by decide⟩

/-- C3 amended: a newly constructed adapter's receive-buffer sizing
parameter defaults to 1542 bytes (at least the 1504 = MTU 1500 + 4-byte
header the spec derives, with extra headroom), for every wrapped iface. -/
theorem c3_default_bufsize (iface : Iface) :
    Async.new iface (Except.ok ()) (Except.ok ()) =
      Except.ok { mio := { io := { iface := iface }, registered := true },
                  recv_bufsize := 1542 } ∧ (1504 : Nat) ≤ 1542 :=
  ⟨rfl, by decide⟩

/-- C4: every wake of `Stream::poll` consumes exactly one recv event, and
on a delivered packet the chunk handed to the caller is exactly the bytes
that single recv produced: the packet truncated to the receive buffer, its
length equal to the byte count the recv syscall returned. -/
theorem c4_single_recv_exact_chunk (a : Async) (data : List Nat)
    (rest : List RecvEvent) :
    Async.poll a (RecvEvent.packet data :: rest) =
      some (Except.ok (FAsync.ready
        (some (data.take (min data.length a.recv_bufsize)))), a, rest) ∧
    (data.take (min data.length a.recv_bufsize)).length =
      (osRead data a.recvBuffer).2 ∧
    ∀ ev env, (Async.poll a (ev :: env)).map (fun out => out.2.2) =
      some env := by
  refine ⟨poll_packet a data rest, ?_, ?_⟩
  · simp only [osRead, Async.recvBuffer, List.length_take,
      List.length_replicate]
    omega
  · intro ev env
    cases ev with
    | packet d => rw [poll_packet]; rfl
    | failed e =>
      by_cases h : e.kind = ErrorKind.wouldBlock <;>
        simp [Async.poll, MioWrapper.read, Iface.recv, h]

/-- C5: the mode and the kernel-confirmed name are fixed at construction
and immutable afterwards: `with_options` stores exactly the requested mode
and the kernel-returned name, and no sequence of recv/send/accessor calls
changes the handle, so `mode()` and `name()` always return the
construction-time values. -/
theorem c5_mode_name_immutable (mode : Mode) (fd : Nat) (kernelName : String)
    (i : Iface) (ops : List IfaceOp) :
    Iface.with_options mode (Except.ok fd) (Except.ok kernelName) =
      Except.ok { fd := fd, mode := mode, name := kernelName } ∧
    (Iface.runOps i ops).getMode = i.getMode ∧
    (Iface.runOps i ops).getName = i.getName := by
  refine ⟨rfl, ?_, ?_⟩ <;> rw [runOps_eq]

/-- C6: the duplicate operation yields a second handle on the same
underlying resource: it has the same descriptor, receives from the same
kernel-side queue, and once the original consumes a packet the duplicate's
pending queue no longer contains it (the remaining queue is exactly the
tail). -/
theorem c6_duplicate_shares_resource (i : Iface) (k : Kernel) (p : List Nat)
    (rest : List (List Nat)) (h : k.queues i.fd = p :: rest) :
    (Iface.duplicate i).fd = i.fd ∧
    kernelRecv k (Iface.duplicate i) = kernelRecv k i ∧
    ∃ k2 : Kernel, kernelRecv k i = some (p, k2) ∧
      k2.queues (Iface.duplicate i).fd = rest := by
  refine ⟨rfl, rfl, ?_⟩
  refine ⟨{ queues := fun f => if f = i.fd then rest else k.queues f }, ?_, ?_⟩
  · simp [kernelRecv, h]
  · show (if i.fd = i.fd then rest else k.queues i.fd) = rest
    simp

/-- Witness for C6 on a concrete interface and kernel with two pending
packets. -/
theorem c6_witness :
    sampleKernel.queues sampleIface.fd = [[9, 9], [7]] ∧
    ((Iface.duplicate sampleIface).fd = sampleIface.fd ∧
      kernelRecv sampleKernel (Iface.duplicate sampleIface) =
        kernelRecv sampleKernel sampleIface ∧
      ∃ k2 : Kernel, kernelRecv sampleKernel sampleIface = some ([9, 9], k2) ∧
        k2.queues (Iface.duplicate sampleIface).fd = [[7]]) :=
  ⟨rfl, c6_duplicate_shares_resource sampleIface sampleKernel [9, 9] [[7]] rfl⟩

/-- C7: `set_recv_bufsize n` makes every later receive attempt allocate a
buffer of exactly `n` bytes (so a received packet yields at most `n`
bytes), and changes nothing else: the registered handle is untouched and
the send path behaves identically. -/
theorem c7_set_recv_bufsize (a : Async) (n : Nat) :
    (Async.set_recv_bufsize a n).recv_bufsize = n ∧
    (Async.set_recv_bufsize a n).recvBuffer.length = n ∧
    (Async.set_recv_bufsize a n).mio = a.mio ∧
    (∀ data rest,
      Async.poll (Async.set_recv_bufsize a n) (RecvEvent.packet data :: rest) =
        some (Except.ok (FAsync.ready
          (some (data.take (min data.length n)))),
          Async.set_recv_bufsize a n, rest) ∧
      (data.take (min data.length n)).length ≤ n) ∧
    (∀ item ev, Async.start_send (Async.set_recv_bufsize a n) item ev =
      ((Async.start_send a item ev).1, Async.set_recv_bufsize a n)) := by
  refine ⟨rfl, by simp [Async.recvBuffer, Async.set_recv_bufsize], rfl, ?_, ?_⟩
  · intro data rest
    refine ⟨poll_packet (Async.set_recv_bufsize a n) data rest, ?_⟩
    simp only [List.length_take]
    omega
  · intro item ev
    cases ev with
    | accepted size => rfl
    | failed e =>
      by_cases h : e.kind = ErrorKind.wouldBlock <;>
        simp [Async.start_send, MioWrapper.write, Iface.send, h]

/-- C8: a would-block outcome of `Sink::start_send` is atomic: the result
is `Ok(NotReady(item))` carrying byte-for-byte the very item passed in,
and the adapter state after the call equals the state before it. -/
theorem c8_start_send_would_block_atomic (a : Async) (item : List Nat)
    (e : IOError) (h : e.kind = ErrorKind.wouldBlock) :
    Async.start_send a item (SendEvent.failed e) =
      (Except.ok (ASink.notReady item), a) := by
  simp [Async.start_send, MioWrapper.write, Iface.send, h]

/-- Witness for C8 at a concrete adapter, item and EAGAIN error. -/
theorem c8_witness :
    eAgain.kind = ErrorKind.wouldBlock ∧
    Async.start_send sampleAsync [7, 7, 7] (SendEvent.failed eAgain) =
      (Except.ok (ASink.notReady [7, 7, 7]), sampleAsync) :=
  ⟨rfl, c8_start_send_would_block_atomic sampleAsync [7, 7, 7] eAgain rfl⟩

/-- C9: a successful write attempt inside `Sink::start_send` reports the
item as fully accepted whatever byte count the underlying send returned: a
short write gives a result identical to a complete one, the tail is
silently discarded. -/
theorem c9_short_write_indistinguishable (a : Async) (item : List Nat)
    (size1 size2 : Nat) :
    Async.start_send a item (SendEvent.accepted size1) =
      (Except.ok ASink.ready, a) ∧
    Async.start_send a item (SendEvent.accepted size1) =
      Async.start_send a item (SendEvent.accepted size2) :=
  ⟨rfl, rfl⟩

/-- C10: `Stream::poll` never signals end-of-stream: whatever the syscall
outcome, its result is never `Ok(Ready(None))`. -/
theorem c10_never_end_of_stream (a : Async) (env : List RecvEvent)
    (r : Except IOError (FAsync (Option (List Nat)))) (a2 : Async)
    (env2 : List RecvEvent) (h : Async.poll a env = some (r, a2, env2)) :
    r ≠ Except.ok (FAsync.ready none) := by
  cases env with
  | nil => simp [Async.poll] at h
  | cons ev rest =>
    cases ev with
    | packet data =>
      rw [poll_packet] at h
      simp only [Option.some.injEq, Prod.mk.injEq] at h
      obtain ⟨h1, -, -⟩ := h
      subst h1
      simp
    | failed e =>
      by_cases hk : e.kind = ErrorKind.wouldBlock <;>
        simp only [Async.poll, MioWrapper.read, Iface.recv, hk, if_pos,
          if_neg, ite_true, ite_false, Option.some.injEq, Prod.mk.injEq] at h
      · obtain ⟨h1, -, -⟩ := h
        subst h1
        simp
      · obtain ⟨h1, -, -⟩ := h
        subst h1
        simp

/-- Witness for C10 at a concrete adapter and a would-block event. -/
theorem c10_witness :
    Async.poll sampleAsync [RecvEvent.failed eAgain] =
      some (Except.ok FAsync.notReady, sampleAsync, []) ∧
    (Except.ok FAsync.notReady :
      Except IOError (FAsync (Option (List Nat)))) ≠
      Except.ok (FAsync.ready none) :=
  ⟨rfl, c10_never_end_of_stream sampleAsync [RecvEvent.failed eAgain]
    (Except.ok FAsync.notReady) sampleAsync [] rfl⟩

end TunTap
